import Mathlib

/-!
Verification of the Ruman AI core pipeline specification against the
repository.  The repository ships the frontend (React JSX), the REST / data
documentation (README.md, docs/TEACHER_API.md) and the project report; the
Python AI-service sources (chunker, retriever, answer generator, hybrid
evaluator) are not part of the tree, so those components are modelled from
the specification text, as marked in each doc comment.  Artifacts that are
present in the tree (the SQL schema in README.md, the teacher API examples,
TeacherDashboard.jsx, Chatbot.jsx) are embedded directly from their source.
-/

namespace RumanAI

/-! ## Chunker -/

/-- Error taxonomy of the pipeline (spec section 7). -/
inductive PipelineError where
  | invalidInput
  deriving DecidableEq, Repr

/-- Modelled from the spec: the Chunker's sliding-window loop (section 4.1).
`fuel` bounds the recursion; callers pass the text length, which suffices
whenever `1 ≤ step`.  Emits the window `l.take size` and recurses on
`l.drop step` until at most `size` characters remain. -/
def chunkAux (size step : Nat) : Nat → List Char → List (List Char)
  | 0, l => [l]
  | fuel + 1, l =>
    if l.length ≤ size then [l]
    else l.take size :: chunkAux size step fuel (l.drop step)

/-- Modelled from the spec: `chunk(text, size, overlap)` (section 4.1).
Splits text into successive windows of `size` characters, each window after
the first beginning `size - overlap` characters after the previous window's
start; the last chunk may be shorter.  Fails with `InvalidInputError` when
`overlap >= size` (section 4.1) or when the text is empty (section 7). -/
def chunk (t : List Char) (size overlap : Nat) : Except PipelineError (List (List Char)) :=
  if size ≤ overlap then .error .invalidInput
  else if t.length = 0 then .error .invalidInput
  else .ok (chunkAux size (size - overlap) t.length t)

/-! ## Vector store and retriever -/

/-- A chunk as returned by a vector-store query: id, text and its distance
from the query embedding (spec section 4.3). -/
structure Candidate where
  cid : Nat
  text : String
  distance : ℚ
  deriving DecidableEq, Repr

/-- Ascending-distance comparison used by the vector store. -/
def distLE (a b : Candidate) : Prop := a.distance ≤ b.distance

instance : DecidableRel distLE := fun a b =>
  inferInstanceAs (Decidable (a.distance ≤ b.distance))

instance : IsTotal Candidate distLE := ⟨fun a b => le_total a.distance b.distance⟩

instance : IsTrans Candidate distLE := ⟨fun _ _ _ h h2 => le_trans h h2⟩

/-- Modelled from the spec: `query(collection_id, vector, top_k)` of the
Vector Store (section 4.3) — the `top_k` nearest entries of one collection,
ordered by ascending distance (closest first). -/
def storeQuery (coll : List Candidate) (topK : Nat) : List Candidate :=
  (coll.insertionSort distLE).take topK

/-- Vector-store connectivity failure (spec section 7). -/
inductive StoreError where
  | connectivity
  deriving DecidableEq, Repr

/-- Modelled from the spec: the Retriever's relevance gate (section 4.4).
Filters out any chunk whose distance exceeds `maxDistance`; zero survivors
yield an empty sequence, not an error, and a store failure is treated as
"no relevant chunks found" (section 7). -/
def retrieve (resp : Except StoreError (List Candidate)) (maxDistance : ℚ) : List Candidate :=
  match resp with
  | .error _ => []
  | .ok cands => cands.filter (fun c => c.distance ≤ maxDistance)

/-- Modelled from the spec: `retrieve(collection_id, question, top_k,
max_distance)` (section 4.4) — store query then relevance gate. -/
def retrieveTopK (coll : List Candidate) (topK : Nat) (maxDistance : ℚ) : List Candidate :=
  retrieve (.ok (storeQuery coll topK)) maxDistance

/-- Modelled from the spec: the store holds one collection per knowledge
base, addressed by name (spec sections 4.3 and 6). -/
def lookupCollection (store : List (String × List Candidate)) (cname : String) : List Candidate :=
  match store.find? (fun p => p.1 == cname) with
  | some p => p.2
  | none => []

/-- Modelled from the spec: a query against the store is addressed to one
named collection (spec section 4.3). -/
def storeQueryIn (store : List (String × List Candidate)) (cname : String) (topK : Nat) :
    List Candidate :=
  storeQuery (lookupCollection store cname) topK

/-! ## Answer generator -/

/-- Model-backend failure modes (spec section 4.5). -/
inductive BackendError where
  | timeout
  | quota
  | malformed
  deriving DecidableEq, Repr

/-- Modelled from the spec: the fixed decline message produced in the
`Ungrounded` state (section 4.5; exact wording not fixed by the spec). -/
def declineMessage : String :=
  "I can only answer questions based on the provided course materials. Your question appears to be outside the scope of the uploaded documents."

/-- Modelled from the spec: the user-visible degraded message returned on
persistent backend failure, distinct from the decline message (section 4.5). -/
def degradedMessage : String :=
  "The AI service is temporarily unavailable. Please try again later."

/-- Modelled from the spec: prompt = system persona + concatenated retrieved
chunk texts, in retrieved order + user question (section 4.5). -/
def buildPrompt (persona : String) (chunks : List Candidate) (question : String) : String :=
  persona ++ "\n\nContext:\n" ++ String.intercalate "\n" (chunks.map (fun c => c.text))
    ++ "\n\nQuestion: " ++ question

/-- Terminal outcomes of the answer-generator state machine; the three
shapes are distinguishable by construction (spec sections 4.5 and 7). -/
inductive TutorOutcome where
  | answered (text : String)
  | ungrounded
  | backendFailure (message : String)
  deriving DecidableEq, Repr

/-- Result of one `query_tutor` call: `{answer_text, grounded}` (spec
section 6) plus the outcome shape and the number of backend invocations
actually performed. -/
structure TutorResponse where
  outcome : TutorOutcome
  answerText : String
  grounded : Bool
  backendCalls : Nat
  deriving DecidableEq, Repr

/-- Modelled from the spec: the answer-generator state machine
`Idle → Retrieving → (Grounded | Ungrounded) → Responding → Done`
(section 4.5).  Empty retrieval declines without calling the backend;
otherwise the backend is called with the grounded prompt, retried once on
error, and persistent failure yields the degraded message.  The backend is
indexed by attempt number so that flaky behaviour is expressible. -/
def queryTutor (retrieved : List Candidate)
    (backend : Nat → String → Except BackendError String)
    (persona question : String) : TutorResponse :=
  if retrieved.isEmpty then
    ⟨.ungrounded, declineMessage, false, 0⟩
  else
    match backend 0 (buildPrompt persona retrieved question) with
    | .ok t => ⟨.answered t, t, true, 1⟩
    | .error _ =>
      match backend 1 (buildPrompt persona retrieved question) with
      | .ok t => ⟨.answered t, t, true, 2⟩
      | .error _ => ⟨.backendFailure degradedMessage, degradedMessage, false, 2⟩

/-- Modelled from the spec: `query_tutor` end to end (sections 4.4–4.6) —
retrieve from the knowledge base's collection, then run the generator. -/
def queryTutorPipeline (coll : List Candidate) (topK : Nat) (maxDistance : ℚ)
    (backend : Nat → String → Except BackendError String)
    (persona question : String) : TutorResponse :=
  queryTutor (retrieveTopK coll topK maxDistance) backend persona question

/-! ## Hybrid evaluator -/

/-- Evaluation Result produced for one Evaluation Request (spec section 3):
component scores, weighted final score, percentage, optional feedback. -/
structure EvaluationResult where
  lexical : ℚ
  semantic : ℚ
  keyword : ℚ
  finalScore : ℚ
  percentage : ℚ
  feedback : Option String
  deriving DecidableEq, Repr

/-- Modelled from the spec: the free-form "explain what is missing" prompt
used for optional generative feedback (section 4.9). -/
def feedbackPrompt (question submitted reference : String) : String :=
  "Explain what is missing from this answer. Question: " ++ question
    ++ " Submitted: " ++ submitted ++ " Reference: " ++ reference

/-- Modelled from the spec: `evaluate(...)` of the Hybrid Evaluator
(section 4.9) over already-computed component scores.
`final_fraction = 0.25 * lexical + 0.50 * semantic + 0.25 * keyword`,
`final_score = final_fraction * max_points` clamped to `[0, max_points]`;
feedback is requested only when `final_fraction < 0.70` and `use_feedback`
is set, and a backend failure omits feedback rather than failing. -/
def evaluate (lexical semantic keyword maxPoints : ℚ) (useFeedback : Bool)
    (backend : String → Except BackendError String)
    (question submitted reference : String) : EvaluationResult :=
  let frac := 1/4 * lexical + 1/2 * semantic + 1/4 * keyword
  let finalScore := max 0 (min (frac * maxPoints) maxPoints)
  let fb :=
    if useFeedback = true ∧ frac < 7/10 then
      match backend (feedbackPrompt question submitted reference) with
      | .ok t => some t
      | .error _ => none
    else none
  ⟨lexical, semantic, keyword, finalScore, frac * 100, fb⟩

/-! ## Scorers -/

/-- Modelled from the spec: a small stopword list used by normalization
(sections 4.6 and 4.8; the concrete list is not fixed by the spec). -/
def stopwords : List String :=
  ["a", "an", "the", "is", "are", "was", "were", "of", "to", "in", "on", "and", "or",
   "it", "this", "that"]

/-- Splits a character list at spaces, keeping empty words, mirroring
`String.splitOn " "`. -/
def splitOnSpace : List Char → List (List Char)
  | [] => [[]]
  | c :: cs =>
    match splitOnSpace cs with
    | [] => [[c]]
    | w :: ws => if c = ' ' then [] :: w :: ws else (c :: w) :: ws

/-- Modelled from the spec: normalization — lowercase, whitespace
tokenization, stopword removal (sections 4.6 and 4.8). -/
def tokenize (s : String) : List String :=
  ((splitOnSpace (s.data.map Char.toLower)).map (fun w => String.mk w)).filter
    (fun w => !(w == "") && !(stopwords.contains w))

/-- Dot product of two real vectors given as lists (componentwise up to the
shorter length). -/
def dotL : List ℝ → List ℝ → ℝ
  | [], _ => 0
  | _ :: _, [] => 0
  | a :: u, b :: v => a * b + dotL u v

/-- Modelled from the spec: cosine similarity of two dense vectors
(sections 4.6 and 4.7), returning 0 when either vector is zero. -/
noncomputable def cosineSim (u v : List ℝ) : ℝ :=
  if dotL u u = 0 ∨ dotL v v = 0 then 0
  else dotL u v / (Real.sqrt (dotL u u) * Real.sqrt (dotL v v))

/-- Term frequency of `t` in a tokenized document. -/
def termFreq (doc : List String) (t : String) : Nat := doc.count t

/-- Document frequency of `t` over the two-document corpus (section 4.6). -/
def docFreq (ta tb : List String) (t : String) : Nat :=
  (if t ∈ ta then 1 else 0) + (if t ∈ tb then 1 else 0)

/-- Modelled from the spec: smoothed inverse document frequency over the
two-document corpus `{submitted, reference}` (section 4.6):
`log((1 + N) / (1 + df)) + 1` with `N = 2`. -/
noncomputable def idf (ta tb : List String) (t : String) : ℝ :=
  Real.log (3 / (1 + (docFreq ta tb t : ℝ))) + 1

/-- TF-IDF vector of one tokenized document over the corpus vocabulary. -/
noncomputable def tfidfVec (ta tb doc : List String) : List ℝ :=
  ((ta ++ tb).dedup).map (fun t => (termFreq doc t : ℝ) * idf ta tb t)

/-- Modelled from the spec: the Lexical Scorer — TF-IDF vectors over the
two-document corpus, cosine similarity, 0 on degenerate input
(section 4.6). -/
noncomputable def lexicalScore (submitted reference : String) : ℝ :=
  if tokenize submitted = [] ∨ tokenize reference = [] then 0
  else
    cosineSim (tfidfVec (tokenize submitted) (tokenize reference) (tokenize submitted))
      (tfidfVec (tokenize submitted) (tokenize reference) (tokenize reference))

/-- Modelled from the spec: the Semantic Scorer — cosine similarity of the
Embedder's dense vectors, negatives clamped to 0, and 0 on empty input
(sections 4.2, 4.7 and 7). -/
noncomputable def semanticScore (embed : String → List ℝ) (submitted reference : String) : ℝ :=
  if submitted = "" ∨ reference = "" then 0
  else max 0 (cosineSim (embed submitted) (embed reference))

/-- Modelled from the spec: the Keyword Scorer — fraction of distinct
reference keywords appearing in the submitted answer, 0 when the reference
yields no keywords (section 4.8). -/
def keywordScore (submitted reference : String) : ℚ :=
  if (tokenize reference).dedup = [] then 0
  else
    (((tokenize reference).dedup.filter (fun t => (tokenize submitted).contains t)).length : ℚ)
      / (((tokenize reference).dedup.length : ℚ))

/-! ## Embedded repository artifacts (present under the tree) -/

/-- Embedded from README.md, `chatbot_documents` DDL (the table backing
uploaded RAG documents): its column names, in declaration order. -/
def chatbotDocumentsColumns : List String :=
  ["id", "chatbot_id", "filename", "content_type", "file_path", "chunk_count", "created_at"]

/-- Follows the spec's words (section 3), for comparison with the embedded
schema: the ingestion statuses a document record is claimed to carry. -/
def specIngestionStatuses : List String := ["pending", "processed", "failed"]

/-- Embedded from docs/TEACHER_API.md: the create-chatbot response shows
`collection_name` of the form `course_1_chatbot_1705423200.123` — the
course id paired with the creation timestamp. -/
def collectionName (courseId : Nat) (createdAt : String) : String :=
  "course_" ++ toString courseId ++ "_chatbot_" ++ createdAt

/-- Result of one frontend API call as observed by the dashboard code:
success, or an error carrying an optional `detail` string. -/
inductive ApiCall where
  | ok
  | err (detail : Option String)
  deriving DecidableEq, Repr

/-- Observable outcome of `handleFileUpload` in TeacherDashboard.jsx:
the function's return value, whether the document record exists server-side
after the flow, whether its chunks were embedded, and the alert shown. -/
structure UploadOutcome where
  returned : Option Bool
  documentCreated : Bool
  embedded : Bool
  alertMessage : Option String
  deriving DecidableEq, Repr

/-- Embedded from TeacherDashboard.jsx: the combined error alert of the
upload/process catch block. -/
def uploadErrorAlert (detail : Option String) : String :=
  "Error: " ++ detail.getD "Upload/Embedding failed"

/-- Embedded from TeacherDashboard.jsx: the success alert. -/
def uploadSuccessAlert : String :=
  "Document uploaded and embedded successfully! 📄✨"

/-- Embedded from TeacherDashboard.jsx, `handleFileUpload`: one upload call
then one process-documents call, both awaited inside a single try block
whose catch only alerts — an upload that succeeded is never rolled back
when processing fails, and a failed upload never reaches the process call
(the `process` argument is ignored on that path). -/
def handleFileUpload (hasFile : Bool) (upload process : ApiCall) : UploadOutcome :=
  if hasFile = false then ⟨none, false, false, none⟩
  else
    match upload with
    | .err d => ⟨some false, false, false, some (uploadErrorAlert d)⟩
    | .ok =>
      match process with
      | .ok => ⟨some true, true, true, some uploadSuccessAlert⟩
      | .err d => ⟨some false, true, false, some (uploadErrorAlert d)⟩

/-! ## Chunker lemmas -/

theorem chunkAux_ne_nil (size step fuel : Nat) (l : List Char) :
    chunkAux size step fuel l ≠ [] := by
  cases fuel with
  | zero => simp [chunkAux]
  | succ n =>
    by_cases h : l.length ≤ size <;> simp [chunkAux, h]

theorem chunkAux_of_le (size step fuel : Nat) (l : List Char) (h : l.length ≤ size) :
    chunkAux size step fuel l = [l] := by
  cases fuel <;> simp [chunkAux, h]

theorem chunkAux_of_lt (size step fuel : Nat) (l : List Char) (h : size < l.length)
    (hf : l.length ≤ fuel) :
    chunkAux size step fuel l = l.take size :: chunkAux size step (fuel - 1) (l.drop step) := by
  cases fuel with
  | zero => omega
  | succ n => simp [chunkAux, Nat.not_le.mpr h]

theorem chunkAux_head? (size step fuel : Nat) (l : List Char) (hl : l.length ≤ fuel) :
    (chunkAux size step fuel l).head? = some (l.take size) := by
  by_cases h : l.length ≤ size
  · rw [chunkAux_of_le size step fuel l h, List.head?_cons, List.take_of_length_le h]
  · rw [chunkAux_of_lt size step fuel l (by omega) hl, List.head?_cons]

theorem chunkAux_length_two (size step fuel : Nat) (l : List Char) (h : size < l.length)
    (hl : l.length ≤ fuel) :
    2 ≤ (chunkAux size step fuel l).length := by
  rw [chunkAux_of_lt size step fuel l h hl, List.length_cons]
  have := List.length_pos.mpr (chunkAux_ne_nil size step (fuel - 1) (l.drop step))
  omega

theorem chunkAux_get? (size step : Nat) (hstep : 1 ≤ step) :
    ∀ (fuel : Nat) (l : List Char), l.length ≤ fuel →
      ∀ i, i < (chunkAux size step fuel l).length →
        (chunkAux size step fuel l).get? i = some ((l.drop (i * step)).take size) := by
  intro fuel
  induction fuel with
  | zero =>
    intro l hl i hi
    have hnil : l = [] := List.eq_nil_of_length_eq_zero (Nat.le_zero.mp hl)
    subst hnil
    have h0 : i = 0 := by
      rw [chunkAux_of_le size step 0 [] (by simp)] at hi
      simpa using hi
    subst h0
    simp [chunkAux_of_le size step 0 ([] : List Char) (by simp)]
  | succ n ih =>
    intro l hl i hi
    by_cases h : l.length ≤ size
    · have h0 : i = 0 := by
        rw [chunkAux_of_le size step (n + 1) l h] at hi
        simpa using hi
      subst h0
      simp [chunkAux_of_le size step (n + 1) l h, List.take_of_length_le h]
    · rw [chunkAux_of_lt size step (n + 1) l (by omega) hl] at hi ⊢
      cases i with
      | zero => simp
      | succ j =>
        rw [List.get?_cons_succ]
        have hrec : (l.drop step).length ≤ n := by
          rw [List.length_drop]; omega
        have hj : j < (chunkAux size step (n + 1 - 1) (l.drop step)).length := by
          simpa using hi
        rw [show n + 1 - 1 = n from rfl] at hj ⊢
        rw [ih (l.drop step) hrec j hj, List.drop_drop]
        have harith : step + j * step = (j + 1) * step := by ring
        rw [harith]

theorem chunkAux_chain (size step overlap : Nat) (hstep : 1 ≤ step)
    (hso : step + overlap = size) :
    ∀ (fuel : Nat) (l : List Char), l.length ≤ fuel →
      List.Chain' (fun a b => a.drop (a.length - overlap) = b.take overlap)
        (chunkAux size step fuel l) := by
  intro fuel
  induction fuel with
  | zero =>
    intro l hl
    have hnil : l = [] := List.eq_nil_of_length_eq_zero (Nat.le_zero.mp hl)
    subst hnil
    rw [chunkAux_of_le size step 0 [] (by simp)]
    exact List.chain'_singleton _
  | succ n ih =>
    intro l hl
    by_cases h : l.length ≤ size
    · rw [chunkAux_of_le size step (n + 1) l h]
      exact List.chain'_singleton _
    · rw [chunkAux_of_lt size step (n + 1) l (by omega) hl]
      have hrec : (l.drop step).length ≤ n := by
        rw [List.length_drop]; omega
      rw [List.chain'_cons']
      refine ⟨?_, by simpa using ih (l.drop step) hrec⟩
      intro y hy
      rw [show n + 1 - 1 = n from rfl, chunkAux_head? size step n (l.drop step) hrec] at hy
      have hyy : y = (l.drop step).take size := by
        simpa [eq_comm] using hy
      subst hyy
      have hlts : (l.take size).length = size := by
        rw [List.length_take]; omega
      rw [hlts, List.drop_take, List.take_take]
      have e1 : size - (size - overlap) = overlap := by omega
      have e2 : size - overlap = step := by omega
      have e3 : overlap ⊓ size = overlap := min_eq_left (by omega)
      rw [e1, e2, e3]

/-- C3: for every text longer than `size` and every `overlap < size`,
`chunk` returns at least two chunks, chunk `i` is the window of the text
starting `i * (size - overlap)` characters in (so each chunk after the
first starts `size - overlap` characters after the previous chunk's start),
and each chunk's last `overlap` characters equal the next chunk's first
`overlap` characters. -/
theorem chunk_overlap_spec (t : List Char) (size overlap : Nat)
    (hov : overlap < size) (hlen : size < t.length) :
    ∃ cs, chunk t size overlap = .ok cs ∧
      2 ≤ cs.length ∧
      (∀ i, i < cs.length → cs.get? i = some ((t.drop (i * (size - overlap))).take size)) ∧
      List.Chain' (fun a b => a.drop (a.length - overlap) = b.take overlap) cs := by
  have hstep : 1 ≤ size - overlap := by omega
  have hne : ¬ size ≤ overlap := by omega
  have hlen0 : ¬ t.length = 0 := by omega
  refine ⟨chunkAux size (size - overlap) t.length t, ?_, ?_, ?_, ?_⟩
  · simp [chunk, hne, hlen0]
  · exact chunkAux_length_two size (size - overlap) t.length t hlen le_rfl
  · exact chunkAux_get? size (size - overlap) hstep t.length t le_rfl
  · exact chunkAux_chain size (size - overlap) overlap hstep (by omega) t.length t le_rfl

/-- C3 witness: the guarantee instantiated on a concrete 6-character text
with `size = 4`, `overlap = 2`. -/
theorem chunk_overlap_spec_witness :
    2 < 4 ∧ 4 < "abcdef".toList.length ∧
    (∃ cs, chunk "abcdef".toList 4 2 = .ok cs ∧
      2 ≤ cs.length ∧
      (∀ i, i < cs.length → cs.get? i = some (("abcdef".toList.drop (i * (4 - 2))).take 4)) ∧
      List.Chain' (fun a b => a.drop (a.length - 2) = b.take 2) cs) :=
  ⟨by decide, by decide, chunk_overlap_spec "abcdef".toList 4 2 (by decide) (by decide)⟩

set_option maxRecDepth 8000 in
/-- C4 counterexample: a 1000-character document chunked with `size = 512`,
`overlap = 50` yields three chunks of lengths 512, 512 and 76 — not the
two chunks the claim states. -/
theorem chunk_1000_two_chunks_false :
    chunk (List.replicate 1000 'a') 512 50 =
      Except.ok [List.replicate 512 'a', List.replicate 512 'a', List.replicate 76 'a'] ∧
    ¬ ∃ cs, chunk (List.replicate 1000 'a') 512 50 = Except.ok cs ∧ cs.length = 2 := by
  have h : chunk (List.replicate 1000 'a') 512 50 =
      Except.ok [List.replicate 512 'a', List.replicate 512 'a', List.replicate 76 'a'] := rfl
  refine ⟨h, ?_⟩
  rintro ⟨cs, hcs, hlen2⟩
  rw [h] at hcs
  have hval := Except.ok.inj hcs
  rw [← hval] at hlen2
  simp at hlen2

/-- C4 amended: chunking a 1000-character document with `size = 512`,
`overlap = 50` returns exactly three chunks, spanning characters
`[0, 512)`, `[462, 974)` and `[924, 1000)`. -/
theorem chunk_1000_amended (t : List Char) (h : t.length = 1000) :
    chunk t 512 50 = Except.ok [t.take 512, (t.drop 462).take 512, t.drop 924] := by
  have h1 : ¬ (512 : Nat) ≤ 50 := by omega
  have h2 : ¬ t.length = 0 := by omega
  rw [chunk, if_neg h1, if_neg h2]
  congr 1
  rw [chunkAux_of_lt 512 462 t.length t (by omega) le_rfl]
  rw [chunkAux_of_lt 512 462 (t.length - 1) (t.drop 462)
    (by rw [List.length_drop]; omega) (by rw [List.length_drop]; omega)]
  rw [List.drop_drop]
  rw [chunkAux_of_le 512 462 (t.length - 1 - 1) (t.drop (462 + 462))
    (by rw [List.length_drop]; omega)]

set_option maxRecDepth 8000 in
/-- C4 amended witness: the amended statement on a concrete 1000-character
document. -/
theorem chunk_1000_amended_witness :
    (List.replicate 1000 'a').length = 1000 ∧
    chunk (List.replicate 1000 'a') 512 50 =
      Except.ok [(List.replicate 1000 'a').take 512,
        ((List.replicate 1000 'a').drop 462).take 512,
        (List.replicate 1000 'a').drop 924] :=
  ⟨List.length_replicate 1000 'a', chunk_1000_amended (List.replicate 1000 'a') (List.length_replicate 1000 'a')⟩

/-! ## Retriever and answer-generator theorems -/

theorem retrieveTopK_eq_nil (coll : List Candidate) (topK : Nat) (maxDistance : ℚ)
    (h : ∀ c ∈ storeQuery coll topK, maxDistance < c.distance) :
    retrieveTopK coll topK maxDistance = [] := by
  simp only [retrieveTopK, retrieve]
  rw [List.filter_eq_nil_iff]
  intro c hc
  simpa using not_le.mpr (h c hc)

/-- C5: `retrieve` returns exactly those of the `top_k` nearest chunks whose
distance does not exceed `max_distance`, as a subsequence of the store's
ascending-distance answer (hence still ascending); when every candidate
exceeds the cutoff it returns the empty sequence as a normal value, and a
store error also degrades to the empty sequence rather than raising. -/
theorem retrieve_relevance_gate (coll : List Candidate) (topK : Nat) (maxDistance : ℚ) :
    (∀ c, c ∈ retrieveTopK coll topK maxDistance ↔
        c ∈ storeQuery coll topK ∧ c.distance ≤ maxDistance) ∧
    (retrieveTopK coll topK maxDistance).Sublist (storeQuery coll topK) ∧
    List.Sorted distLE (retrieveTopK coll topK maxDistance) ∧
    ((∀ c ∈ storeQuery coll topK, maxDistance < c.distance) →
      retrieveTopK coll topK maxDistance = []) ∧
    (∀ e : StoreError, retrieve (.error e) maxDistance = []) := by
  have hsorted : List.Sorted distLE (storeQuery coll topK) :=
    List.Pairwise.sublist (List.take_sublist topK _) (List.sorted_insertionSort distLE coll)
  refine ⟨?_, ?_, ?_, ?_, fun _ => rfl⟩
  · intro c
    simp [retrieveTopK, retrieve, List.mem_filter]
  · exact List.filter_sublist _
  · exact List.Pairwise.filter _ hsorted
  · exact retrieveTopK_eq_nil coll topK maxDistance

/-- C5 witness: a store whose only candidate sits at distance 3 against a
cutoff of 1 yields the empty sequence. -/
theorem retrieve_relevance_gate_witness :
    (∀ c ∈ storeQuery [⟨1, "t", 3⟩] 5, (1 : ℚ) < c.distance) ∧
    retrieveTopK [⟨1, "t", 3⟩] 5 1 = [] :=
  ⟨by decide, (retrieve_relevance_gate [⟨1, "t", 3⟩] 5 1).2.2.2.1 (by decide)⟩

/-- C1: whenever zero chunks pass the relevance gate — in particular for a
knowledge base with no documents at all — `query_tutor` returns
`grounded = false` with the fixed decline message and performs zero
language-model backend calls. -/
theorem queryTutor_strict_rag :
    (∀ (coll : List Candidate) (topK : Nat) (maxDistance : ℚ)
        (backend : Nat → String → Except BackendError String) (persona question : String),
      (∀ c ∈ storeQuery coll topK, maxDistance < c.distance) →
        (queryTutorPipeline coll topK maxDistance backend persona question).grounded = false ∧
        (queryTutorPipeline coll topK maxDistance backend persona question).answerText
          = declineMessage ∧
        (queryTutorPipeline coll topK maxDistance backend persona question).backendCalls = 0 ∧
        (queryTutorPipeline coll topK maxDistance backend persona question).outcome
          = .ungrounded) ∧
    (∀ (topK : Nat) (maxDistance : ℚ)
        (backend : Nat → String → Except BackendError String) (persona question : String),
      (queryTutorPipeline [] topK maxDistance backend persona question).grounded = false ∧
      (queryTutorPipeline [] topK maxDistance backend persona question).answerText
        = declineMessage ∧
      (queryTutorPipeline [] topK maxDistance backend persona question).backendCalls = 0) := by
  constructor
  · intro coll topK maxDistance backend persona question h
    have hempty : retrieveTopK coll topK maxDistance = [] :=
      retrieveTopK_eq_nil coll topK maxDistance h
    simp [queryTutorPipeline, hempty, queryTutor]
  · intro topK maxDistance backend persona question
    have hempty : retrieveTopK [] topK maxDistance = [] := by
      simp [retrieveTopK, retrieve, storeQuery, List.insertionSort]
    simp [queryTutorPipeline, hempty, queryTutor]

/-- C1 witness: the strict-RAG decline on a concrete off-topic store (one
candidate at distance 3, cutoff 1) with a backend that would answer. -/
theorem queryTutor_strict_rag_witness :
    (∀ c ∈ storeQuery [⟨1, "t", 3⟩] 5, (1 : ℚ) < c.distance) ∧
    ((queryTutorPipeline [⟨1, "t", 3⟩] 5 1 (fun _ _ => Except.ok "hi") "p" "q").grounded
        = false ∧
      (queryTutorPipeline [⟨1, "t", 3⟩] 5 1 (fun _ _ => Except.ok "hi") "p" "q").answerText
        = declineMessage ∧
      (queryTutorPipeline [⟨1, "t", 3⟩] 5 1 (fun _ _ => Except.ok "hi") "p" "q").backendCalls
        = 0 ∧
      (queryTutorPipeline [⟨1, "t", 3⟩] 5 1 (fun _ _ => Except.ok "hi") "p" "q").outcome
        = .ungrounded) :=
  ⟨by decide,
    queryTutor_strict_rag.1 [⟨1, "t", 3⟩] 5 1 (fun _ _ => Except.ok "hi") "p" "q" (by decide)⟩

/-- C7: on persistent backend failure the generator stops after exactly one
retry (two calls), returns the degraded message — distinct in content from
the decline message — and its outcome shape `backendFailure` is never the
`ungrounded` shape, so callers can tell the two apart. -/
theorem queryTutor_backend_failure (retrieved : List Candidate)
    (backend : Nat → String → Except BackendError String) (persona question : String)
    (hne : retrieved ≠ [])
    (hfail : ∀ n s, ∃ e, backend n s = .error e) :
    (queryTutor retrieved backend persona question).outcome
        = .backendFailure degradedMessage ∧
    (queryTutor retrieved backend persona question).backendCalls = 2 ∧
    (queryTutor retrieved backend persona question).answerText = degradedMessage ∧
    degradedMessage ≠ declineMessage ∧
    (∀ (retrieved2 : List Candidate) (b2 : Nat → String → Except BackendError String)
        (p2 q2 : String),
      (queryTutor retrieved2 b2 p2 q2).outcome = .ungrounded →
        (queryTutor retrieved2 b2 p2 q2).outcome
          ≠ (queryTutor retrieved backend persona question).outcome) := by
  obtain ⟨e0, he0⟩ := hfail 0 (buildPrompt persona retrieved question)
  obtain ⟨e1, he1⟩ := hfail 1 (buildPrompt persona retrieved question)
  have hemp : retrieved.isEmpty = false := by
    cases retrieved with
    | nil => exact absurd rfl hne
    | cons a as => rfl
  have hrun : queryTutor retrieved backend persona question
      = ⟨.backendFailure degradedMessage, degradedMessage, false, 2⟩ := by
    simp [queryTutor, hemp, he0, he1]
  refine ⟨by rw [hrun], by rw [hrun], by rw [hrun], by decide, ?_⟩
  intro retrieved2 b2 p2 q2 h2
  rw [h2, hrun]
  simp

/-- C7 witness: a grounded query whose backend errors on both attempts. -/
theorem queryTutor_backend_failure_witness :
    ([⟨1, "t", 1⟩] : List Candidate) ≠ [] ∧
    (∀ n s, ∃ e,
      (fun (_ : Nat) (_ : String) => (Except.error BackendError.timeout : Except BackendError String)) n s
        = .error e) ∧
    ((queryTutor [⟨1, "t", 1⟩] (fun _ _ => Except.error BackendError.timeout) "p" "q").outcome
        = .backendFailure degradedMessage ∧
      (queryTutor [⟨1, "t", 1⟩] (fun _ _ => Except.error BackendError.timeout) "p" "q").backendCalls
        = 2 ∧
      (queryTutor [⟨1, "t", 1⟩] (fun _ _ => Except.error BackendError.timeout) "p" "q").answerText
        = degradedMessage ∧
      degradedMessage ≠ declineMessage ∧
      (∀ (retrieved2 : List Candidate) (b2 : Nat → String → Except BackendError String)
          (p2 q2 : String),
        (queryTutor retrieved2 b2 p2 q2).outcome = .ungrounded →
          (queryTutor retrieved2 b2 p2 q2).outcome
            ≠ (queryTutor [⟨1, "t", 1⟩] (fun _ _ => Except.error BackendError.timeout) "p" "q").outcome)) :=
  ⟨by decide, fun n s => ⟨.timeout, rfl⟩,
    queryTutor_backend_failure [⟨1, "t", 1⟩] (fun _ _ => Except.error BackendError.timeout)
      "p" "q" (by decide) (fun n s => ⟨.timeout, rfl⟩)⟩

/-! ## Hybrid-evaluator theorems -/

/-- C2: the final score is the fixed 0.25/0.50/0.25 weighted fraction times
`max_points`, clamped to `[0, max_points]`; all-ones components give
`max_points`, all-zero components give 0, and the bounds
`0 ≤ final_score ≤ max_points` hold for every input. -/
theorem evaluate_weighted_clamp (lexical semantic keyword maxPoints : ℚ)
    (useFeedback : Bool) (backend : String → Except BackendError String)
    (question submitted reference : String) (hmp : 0 ≤ maxPoints) :
    (evaluate lexical semantic keyword maxPoints useFeedback backend question submitted
        reference).finalScore
      = max 0 (min ((1/4 * lexical + 1/2 * semantic + 1/4 * keyword) * maxPoints) maxPoints) ∧
    (lexical = 1 → semantic = 1 → keyword = 1 →
      (evaluate lexical semantic keyword maxPoints useFeedback backend question submitted
        reference).finalScore = maxPoints) ∧
    (lexical = 0 → semantic = 0 → keyword = 0 →
      (evaluate lexical semantic keyword maxPoints useFeedback backend question submitted
        reference).finalScore = 0) ∧
    0 ≤ (evaluate lexical semantic keyword maxPoints useFeedback backend question submitted
        reference).finalScore ∧
    (evaluate lexical semantic keyword maxPoints useFeedback backend question submitted
        reference).finalScore ≤ maxPoints := by
  refine ⟨rfl, ?_, ?_, ?_, ?_⟩
  · intro h1 h2 h3
    subst h1; subst h2; subst h3
    show max 0 (min ((1/4 * 1 + 1/2 * 1 + 1/4 * 1) * maxPoints) maxPoints) = maxPoints
    rw [show (1/4 * 1 + 1/2 * 1 + 1/4 * 1 : ℚ) = 1 by norm_num, one_mul, min_self,
      max_eq_right hmp]
  · intro h1 h2 h3
    subst h1; subst h2; subst h3
    show max 0 (min ((1/4 * 0 + 1/2 * 0 + 1/4 * 0) * maxPoints) maxPoints) = 0
    rw [show (1/4 * 0 + 1/2 * 0 + 1/4 * 0 : ℚ) = 0 by norm_num, zero_mul, min_eq_left hmp,
      max_self]
  · exact le_max_left 0 _
  · exact max_le hmp (min_le_right _ _)

/-- C2 witness: all-ones components with `max_points = 2` score exactly 2. -/
theorem evaluate_weighted_clamp_witness :
    (0 : ℚ) ≤ 2 ∧
    ((evaluate 1 1 1 2 false (fun _ => Except.error BackendError.timeout) "q" "s"
        "r").finalScore
      = max 0 (min ((1/4 * 1 + 1/2 * 1 + 1/4 * 1) * 2) 2) ∧
    ((1 : ℚ) = 1 → (1 : ℚ) = 1 → (1 : ℚ) = 1 →
      (evaluate 1 1 1 2 false (fun _ => Except.error BackendError.timeout) "q" "s"
        "r").finalScore = 2) ∧
    ((1 : ℚ) = 0 → (1 : ℚ) = 0 → (1 : ℚ) = 0 →
      (evaluate 1 1 1 2 false (fun _ => Except.error BackendError.timeout) "q" "s"
        "r").finalScore = 0) ∧
    0 ≤ (evaluate 1 1 1 2 false (fun _ => Except.error BackendError.timeout) "q" "s"
        "r").finalScore ∧
    (evaluate 1 1 1 2 false (fun _ => Except.error BackendError.timeout) "q" "s"
        "r").finalScore ≤ 2) :=
  ⟨by norm_num,
    evaluate_weighted_clamp 1 1 1 2 false (fun _ => Except.error BackendError.timeout)
      "q" "s" "r" (by norm_num)⟩

/-! ## Scorer lemmas -/

theorem dotL_self_nonneg (u : List ℝ) : 0 ≤ dotL u u := by
  induction u with
  | nil => simp [dotL]
  | cons a u ih =>
    simp only [dotL]
    nlinarith [mul_self_nonneg a]

theorem dotL_nonneg : ∀ (u v : List ℝ), (∀ x ∈ u, 0 ≤ x) → (∀ x ∈ v, 0 ≤ x) →
    0 ≤ dotL u v := by
  intro u
  induction u with
  | nil => intro v _ _; simp [dotL]
  | cons a u ih =>
    intro v hu hv
    cases v with
    | nil => simp [dotL]
    | cons b v =>
      simp only [dotL]
      have ha : 0 ≤ a := hu a (by simp)
      have hb : 0 ≤ b := hv b (by simp)
      have hrest := ih v (fun x hx => hu x (by simp [hx])) (fun x hx => hv x (by simp [hx]))
      exact add_nonneg (mul_nonneg ha hb) hrest

theorem dotL_sq_le : ∀ (u v : List ℝ), dotL u v ^ 2 ≤ dotL u u * dotL v v := by
  intro u
  induction u with
  | nil => intro v; simp [dotL]
  | cons a u ih =>
    intro v
    cases v with
    | nil => simp [dotL]
    | cons b v =>
      simp only [dotL]
      have hA : 0 ≤ dotL u u := dotL_self_nonneg u
      have hB : 0 ≤ dotL v v := dotL_self_nonneg v
      have hIH : dotL u v ^ 2 ≤ dotL u u * dotL v v := ih v
      rcases eq_or_lt_of_le hB with hB0 | hBpos
      · have hS2 : dotL u v ^ 2 = 0 := by nlinarith [sq_nonneg (dotL u v)]
        have hS : dotL u v = 0 := by
          have := sq_eq_zero_iff.mp hS2
          exact this
        rw [hS]
        nlinarith [mul_nonneg hA (mul_self_nonneg b), mul_self_nonneg (a * b),
          mul_self_nonneg a]
      · nlinarith [sq_nonneg (a * dotL v v - b * dotL u v),
          mul_nonneg (sq_nonneg b) (sub_nonneg.mpr hIH),
          mul_nonneg (le_of_lt hBpos) (sub_nonneg.mpr hIH), hBpos, hA]

theorem cosineSim_le_one (u v : List ℝ) : cosineSim u v ≤ 1 := by
  rw [cosineSim]
  split
  · exact zero_le_one
  · rename_i h
    push_neg at h
    obtain ⟨hA, hB⟩ := h
    have hA' : 0 < dotL u u := lt_of_le_of_ne (dotL_self_nonneg u) (Ne.symm hA)
    have hB' : 0 < dotL v v := lt_of_le_of_ne (dotL_self_nonneg v) (Ne.symm hB)
    have hden : 0 < Real.sqrt (dotL u u) * Real.sqrt (dotL v v) :=
      mul_pos (Real.sqrt_pos.mpr hA') (Real.sqrt_pos.mpr hB')
    rw [div_le_one hden]
    calc dotL u v ≤ |dotL u v| := le_abs_self _
      _ = Real.sqrt (dotL u v ^ 2) := (Real.sqrt_sq_eq_abs _).symm
      _ ≤ Real.sqrt (dotL u u * dotL v v) := Real.sqrt_le_sqrt (dotL_sq_le u v)
      _ = Real.sqrt (dotL u u) * Real.sqrt (dotL v v) :=
          Real.sqrt_mul (dotL_self_nonneg u) _

theorem cosineSim_nonneg (u v : List ℝ) (hu : ∀ x ∈ u, 0 ≤ x) (hv : ∀ x ∈ v, 0 ≤ x) :
    0 ≤ cosineSim u v := by
  rw [cosineSim]
  split
  · exact le_refl 0
  · exact div_nonneg (dotL_nonneg u v hu hv)
      (mul_nonneg (Real.sqrt_nonneg _) (Real.sqrt_nonneg _))

theorem idf_nonneg (ta tb : List String) (t : String) : 0 ≤ idf ta tb t := by
  rw [idf]
  have hdf : docFreq ta tb t ≤ 2 := by
    rw [docFreq]; split_ifs <;> norm_num
  have hdfr : (docFreq ta tb t : ℝ) ≤ 2 := by exact_mod_cast hdf
  have hpos : (0 : ℝ) < 1 + (docFreq ta tb t : ℝ) := by positivity
  have h1 : (1 : ℝ) ≤ 3 / (1 + (docFreq ta tb t : ℝ)) := by
    rw [le_div_iff₀ hpos]; linarith
  have := Real.log_nonneg h1
  linarith

theorem tfidfVec_nonneg (ta tb doc : List String) : ∀ x ∈ tfidfVec ta tb doc, 0 ≤ x := by
  intro x hx
  rw [tfidfVec] at hx
  obtain ⟨t, _, rfl⟩ := List.mem_map.mp hx
  exact mul_nonneg (Nat.cast_nonneg _) (idf_nonneg ta tb t)

/-- C6: each scorer is total with values in `[0, 1]`; degenerate input
(empty text or zero non-stopword tokens after normalization) scores exactly
0 instead of raising, and the semantic scorer clamps non-positive cosine
similarities to 0. -/
theorem scorers_total_bounded :
    (∀ a b : String, 0 ≤ lexicalScore a b ∧ lexicalScore a b ≤ 1) ∧
    (∀ a b : String, tokenize a = [] ∨ tokenize b = [] → lexicalScore a b = 0) ∧
    (∀ (embed : String → List ℝ) (a b : String),
      0 ≤ semanticScore embed a b ∧ semanticScore embed a b ≤ 1) ∧
    (∀ (embed : String → List ℝ) (a b : String), a = "" ∨ b = "" →
      semanticScore embed a b = 0) ∧
    (∀ (embed : String → List ℝ) (a b : String),
      cosineSim (embed a) (embed b) ≤ 0 → semanticScore embed a b = 0) ∧
    (∀ a b : String, 0 ≤ keywordScore a b ∧ keywordScore a b ≤ 1) ∧
    (∀ a b : String, tokenize a = [] ∨ tokenize b = [] → keywordScore a b = 0) := by
  refine ⟨?_, ?_, ?_, ?_, ?_, ?_, ?_⟩
  · intro a b
    by_cases h : tokenize a = [] ∨ tokenize b = []
    · simp [lexicalScore, h]
    · rw [lexicalScore, if_neg h]
      exact ⟨cosineSim_nonneg _ _ (tfidfVec_nonneg _ _ _) (tfidfVec_nonneg _ _ _),
        cosineSim_le_one _ _⟩
  · intro a b h
    simp [lexicalScore, h]
  · intro embed a b
    by_cases h : a = "" ∨ b = ""
    · simp [semanticScore, h]
    · rw [semanticScore, if_neg h]
      exact ⟨le_max_left 0 _, max_le zero_le_one (cosineSim_le_one _ _)⟩
  · intro embed a b h
    simp [semanticScore, h]
  · intro embed a b h
    by_cases hemp : a = "" ∨ b = ""
    · simp [semanticScore, hemp]
    · rw [semanticScore, if_neg hemp]
      exact max_eq_left h
  · intro a b
    by_cases h : (tokenize b).dedup = []
    · simp [keywordScore, h]
    · rw [keywordScore, if_neg h]
      have hlen : 0 < (tokenize b).dedup.length := List.length_pos.mpr h
      constructor
      · exact div_nonneg (Nat.cast_nonneg _) (Nat.cast_nonneg _)
      · rw [div_le_one (by exact_mod_cast hlen)]
        exact_mod_cast List.length_filter_le _ _
  · intro a b h
    rcases h with h | h
    · by_cases hk : (tokenize b).dedup = []
      · simp [keywordScore, hk]
      · rw [keywordScore, if_neg hk]
        have hfil : (tokenize b).dedup.filter (fun t => (tokenize a).contains t) = [] := by
          rw [List.filter_eq_nil_iff]
          intro t _
          rw [h]
          simp
        rw [hfil]
        simp
    · have hk : (tokenize b).dedup = [] := by rw [h]; rfl
      simp [keywordScore, hk]

/-- C6 witness: degenerate inputs score 0 (a stopword-only text for the
lexical and keyword scorers, an empty string for the semantic scorer), a
concrete negative cosine similarity is clamped to 0, and the spec's gravity
example has a well-bounded keyword score. -/
theorem scorers_total_bounded_witness :
    (tokenize "the" = [] ∨ tokenize "x" = []) ∧ lexicalScore "the" "x" = 0 ∧
    (("" : String) = "" ∨ ("q" : String) = "") ∧
    semanticScore (fun s => if s = "p" then [(1 : ℝ)] else [(-1 : ℝ)]) "" "q" = 0 ∧
    cosineSim ((fun s => if s = "p" then [(1 : ℝ)] else [(-1 : ℝ)]) "p")
      ((fun s => if s = "p" then [(1 : ℝ)] else [(-1 : ℝ)]) "q") ≤ 0 ∧
    semanticScore (fun s => if s = "p" then [(1 : ℝ)] else [(-1 : ℝ)]) "p" "q" = 0 ∧
    (tokenize "x" = [] ∨ tokenize "the" = []) ∧ keywordScore "x" "the" = 0 ∧
    (0 ≤ keywordScore "force pulling" "attractive force" ∧
      keywordScore "force pulling" "attractive force" ≤ 1) := by
  have h1 : tokenize "the" = [] := by decide
  have hcos : cosineSim ((fun s => if s = "p" then [(1 : ℝ)] else [(-1 : ℝ)]) "p")
      ((fun s => if s = "p" then [(1 : ℝ)] else [(-1 : ℝ)]) "q") ≤ 0 := by
    have e1 : ((fun s => if s = "p" then [(1 : ℝ)] else [(-1 : ℝ)]) "p") = [(1 : ℝ)] := by
      simp
    have e2 : ((fun s => if s = "p" then [(1 : ℝ)] else [(-1 : ℝ)]) "q") = [(-1 : ℝ)] := by
      have hne : ¬ ("q" : String) = "p" := by decide
      simp [hne]
    rw [e1, e2, cosineSim]
    have d1 : dotL [(1 : ℝ)] [(1 : ℝ)] = 1 := by norm_num [dotL]
    have d2 : dotL [(-1 : ℝ)] [(-1 : ℝ)] = 1 := by norm_num [dotL]
    have d3 : dotL [(1 : ℝ)] [(-1 : ℝ)] = -1 := by norm_num [dotL]
    rw [d1, d2, d3, if_neg (by norm_num), Real.sqrt_one]
    norm_num
  exact ⟨Or.inl h1, scorers_total_bounded.2.1 "the" "x" (Or.inl h1), Or.inl rfl,
    scorers_total_bounded.2.2.2.1 _ "" "q" (Or.inl rfl), hcos,
    scorers_total_bounded.2.2.2.2.1 _ "p" "q" hcos, Or.inr h1,
    scorers_total_bounded.2.2.2.2.2.2 "x" "the" (Or.inr h1),
    scorers_total_bounded.2.2.2.2.2.1 "force pulling" "attractive force"⟩

/-! ## Data-model and dashboard theorems -/

theorem string_data_inj (s t : String) (h : s.data = t.data) : s = t := by
  cases s; cases t; simp at h; rw [h]

/-- C8 counterexample: the `chatbot_documents` table embedded from README.md
has no status column of any kind, so a stored document record cannot carry
an ingestion status drawn from `{pending, processed, failed}`. -/
theorem document_status_column_missing :
    ¬ ∃ col ∈ chatbotDocumentsColumns, col = "status" ∨ col = "ingestion_status" := by
  decide

/-- C8 amended: a stored document record carries its chatbot id, filename,
content type, file path, chunk count (default 0) and creation time, but no
ingestion-status column; a processing failure after a successful upload
leaves the record created yet unembedded, with no status recorded. -/
theorem document_record_amended :
    "chunk_count" ∈ chatbotDocumentsColumns ∧
    "filename" ∈ chatbotDocumentsColumns ∧
    "status" ∉ chatbotDocumentsColumns ∧
    "ingestion_status" ∉ chatbotDocumentsColumns ∧
    (∀ d : Option String,
      (handleFileUpload true .ok (.err d)).documentCreated = true ∧
      (handleFileUpload true .ok (.err d)).embedded = false) := by
  refine ⟨by decide, by decide, by decide, by decide, fun d => ⟨rfl, rfl⟩⟩

/-- C9 counterexample: two chatbots created for the same course at
different times receive different collection names, so the collection name
is not a deterministic function of the knowledge base's identifier alone. -/
theorem collection_name_not_deterministic :
    collectionName 1 "1705423200.123" ≠ collectionName 1 "1705423300.456" ∧
    ¬ ∃ f : Nat → String, ∀ (courseId : Nat) (createdAt : String),
        collectionName courseId createdAt = f courseId := by
  have hne : collectionName 1 "1705423200.123" ≠ collectionName 1 "1705423300.456" := by
    decide
  refine ⟨hne, ?_⟩
  rintro ⟨f, hf⟩
  exact hne ((hf 1 "1705423200.123").trans (hf 1 "1705423300.456").symm)

/-- C9 amended: each chatbot stores a single collection name fixed at
creation — derived from its course id and creation timestamp, hence
distinct for distinct creation times — and every vector-store query is
scoped to the one collection registered under the queried name: each
returned chunk is a member of exactly that collection. -/
theorem collection_scoping_amended :
    (∀ (courseId : Nat) (t1 t2 : String), t1 ≠ t2 →
      collectionName courseId t1 ≠ collectionName courseId t2) ∧
    (∀ (store : List (String × List Candidate)) (cname : String) (topK : Nat)
      (c : Candidate), c ∈ storeQueryIn store cname topK → c ∈ lookupCollection store cname) := by
  constructor
  · intro cid t1 t2 hne heq
    apply hne
    have h2 := congrArg String.data heq
    simp only [collectionName, String.data_append] at h2
    exact string_data_inj t1 t2 (List.append_cancel_left h2)
  · intro store cname topK c hc
    have h1 : c ∈ (lookupCollection store cname).insertionSort distLE :=
      List.mem_of_mem_take hc
    exact ((List.perm_insertionSort distLE _).mem_iff).mp h1

/-- C9 amended witness: a concrete two-collection store in which a query
against one collection returns only members of that collection. -/
theorem collection_scoping_amended_witness :
    ("a" : String) ≠ "b" ∧
    (⟨7, "t", 1⟩ : Candidate) ∈
      storeQueryIn [("c1", [⟨7, "t", 1⟩]), ("c2", [⟨8, "u", 1⟩])] "c1" 5 ∧
    (⟨7, "t", 1⟩ : Candidate) ∈
      lookupCollection [("c1", [⟨7, "t", 1⟩]), ("c2", [⟨8, "u", 1⟩])] "c1" :=
  ⟨by decide, by decide,
    collection_scoping_amended.2 [("c1", [⟨7, "t", 1⟩]), ("c2", [⟨8, "u", 1⟩])] "c1" 5
      ⟨7, "t", 1⟩ (by decide)⟩

/-- C10: dashboard ingestion is an upload call followed by a separate
process call inside one try/catch; when processing fails the upload is not
rolled back — the record remains created but unembedded, the handler
returns `false`, and the caller observes the single combined error alert,
the same combined shape produced when the upload itself fails, and never
the success alert. -/
theorem handleFileUpload_no_rollback :
    (∀ d : Option String,
      (handleFileUpload true .ok (.err d)).documentCreated = true ∧
      (handleFileUpload true .ok (.err d)).embedded = false ∧
      (handleFileUpload true .ok (.err d)).returned = some false ∧
      (handleFileUpload true .ok (.err d)).alertMessage = some (uploadErrorAlert d)) ∧
    (∀ (d : Option String) (process : ApiCall),
      (handleFileUpload true (.err d) process).alertMessage = some (uploadErrorAlert d)) ∧
    (∀ d : Option String, uploadErrorAlert d ≠ uploadSuccessAlert) := by
  refine ⟨fun d => ⟨rfl, rfl, rfl, rfl⟩, fun d process => rfl, ?_⟩
  intro d h
  have h2 := congrArg String.data h
  simp only [uploadErrorAlert, uploadSuccessAlert, String.data_append] at h2
  rw [List.cons_append] at h2
  have hhead : 'E' = 'D' := by
    injection h2
  exact absurd hhead (by decide)

end RumanAI
